import Mathlib

set_option linter.unusedVariables false

/-!
# Verification of the RTO automation flow (src/main.py)

Shallow embedding of the core of `src/main.py`: the flow controller
`run_flow`, the interaction primitive `execute_js_and_get_text`, and the
process-isolation boundary (`_child_run_flow`, `_run_in_child_sync`).

The external browser driver (nodriver) is modelled as a `Driver` record
giving the outcome of each primitive interaction the flow performs, in
program order.  Each `await` in the Python source is one `tick` of the
model; `asyncio.wait_for(main(), timeout_sec)` is modelled by an optional
deadline counted in completed awaits: when the deadline is `some n`, the
`(n+1)`-st await never completes and the coroutine is abandoned at that
point (cancellation), exactly as `wait_for` cancels `main()` at an await
point.  The request parameters (`reg_no`, `chassis_no`, `rto_value`,
`headless`) are interpolated into the injected script strings, which are
opaque configuration data to the control flow; the model therefore carries
the request but its control flow never branches on it, faithfully to the
source.
-/

/-- Outbound result shape of `run_flow` (src/main.py:61-65): the dict
`{"success": ..., "mobile_number": ..., "details": {"messages": [...]}}`. -/
structure FlowResult where
  success : Bool
  mobile_number : Option String
  messages : List String
  deriving Repr, DecidableEq

/-- The normalized inbound request (src/main.py:59 parameters of `run_flow`). -/
structure RunRequest where
  reg_no : String
  chassis_no : String
  rto_value : String
  headless : Bool
  timeout_sec : Nat
  deriving Repr, DecidableEq

/-- Result of `page.evaluate(script)` as seen by `execute_js_and_get_text`
(src/main.py:30-34): either an object with a `.value` attribute or a plain
value; in both cases the model stores the final `str(...)` rendering. -/
inductive EvalResult where
  | raw (s : String)
  | wrapped (s : String)
  deriving Repr, DecidableEq

/-- `str(result.value)` / `str(result)` of src/main.py:31-34. -/
def evalStr : EvalResult → String
  | .raw s => s
  | .wrapped s => s

/-- `execute_js_and_get_text` (src/main.py:28-36): the driver call
`page.evaluate` either returns a value or raises (`Except.error` carries
the exception text `str(e)`); the function never propagates the exception
and renders it as `f"ERROR: JavaScript execution error: {e}"`. -/
def execute_js_and_get_text (r : Except String EvalResult) : String :=
  match r with
  | .ok v => evalStr v
  | .error e => "ERROR: JavaScript execution error: " ++ e

/-- Python `s.strip()` (src/main.py:303): drop whitespace from both ends. -/
def pyStrip (s : String) : String :=
  String.mk (((s.data.dropWhile Char.isWhitespace).reverse.dropWhile Char.isWhitespace).reverse)

/-- The characters after the first occurrence of `pat` in the list, or
`none` when `pat` does not occur.  This is `s.split(pat, 1)[1]` guarded by
`pat in s` in Python (src/main.py:302-303). -/
def afterFirst (pat : List Char) : List Char → Option (List Char)
  | [] => if pat.isEmpty then some [] else none
  | c :: cs =>
    if pat.isPrefixOf (c :: cs) then some (List.drop pat.length (c :: cs))
    else afterFirst pat cs

/-- `afterFirst` on strings. -/
def strAfterFirst (pat s : String) : Option String :=
  (afterFirst pat.data s.data).map String.mk

/-- Python substring test `pat in s` (src/main.py:192, 270, 302). -/
def strContains (s pat : String) : Bool :=
  (strAfterFirst pat s).isSome

/-- `mob_out.split("SUCCESS:", 1)[1].strip()` (src/main.py:303): the text
after the first occurrence of the marker, stripped.  The `none` branch is
unreachable at the call site, which is guarded by `"SUCCESS:" in mob_out`. -/
def extractAfterMarker (s : String) : String :=
  match strAfterFirst "SUCCESS:" s with
  | some rest => pyStrip rest
  | none => ""

/-- Lines 302-304 of src/main.py as a pure parser: if the marker occurs
anywhere in the extraction text, the extracted value is the stripped text
after its first occurrence; otherwise no value is extracted. -/
def parseMobile (mob_out : String) : Option String :=
  if strContains mob_out "SUCCESS:" then some (extractAfterMarker mob_out) else none

/-- Modelled from the spec: section 4.3 "the final extraction step's result
text is parsed by locating a success marker prefix and taking everything
after it as the extracted value, trimmed of surrounding whitespace;
absence of the marker is treated as a fatal non-extraction".  Refinement
comparison definition: the marker located as a PREFIX of the text, unlike
the source's substring containment. -/
def parseMobileSpec (mob_out : String) : Option String :=
  if "SUCCESS:".data.isPrefixOf mob_out.data then
    some (pyStrip (String.mk (mob_out.data.drop "SUCCESS:".data.length)))
  else none

/-- Outcome channel of one step of the coroutine: normal value, abandoned
at an await by the `asyncio.wait_for` deadline, or a Python exception
propagating (only `uc.start`, src/main.py:89, can reach `run_flow`'s top
level, since every other raise site is handled locally). -/
inductive Res (α : Type) where
  | ok (a : α)
  | timedOut
  | raised (e : String)

/-- Mutable state of one `run_flow` execution: the shared `messages` list,
the `result` dict fields written at src/main.py:303-304, and the await
counter against the optional deadline. -/
structure St where
  deadline : Option Nat
  ticks : Nat
  msgs : List String
  mobile : Option String
  succ : Bool

/-- The coroutine model: state in, state out plus outcome channel. -/
def M (α : Type) := St → St × Res α

def Mpure {α : Type} (a : α) : M α := fun s => (s, Res.ok a)

def Mbind {α β : Type} (x : M α) (f : α → M β) : M β := fun s =>
  match x s with
  | (s1, Res.ok a) => f a s1
  | (s1, Res.timedOut) => (s1, Res.timedOut)
  | (s1, Res.raised e) => (s1, Res.raised e)

instance : Monad M where
  pure := Mpure
  bind := Mbind

/-- One `await`: completes (counting it) unless the deadline has been
reached, in which case the coroutine is abandoned at this await point. -/
def tick : M Unit := fun s =>
  match s.deadline with
  | none => ({ s with ticks := s.ticks + 1 }, Res.ok ())
  | some n =>
    if s.ticks < n then ({ s with ticks := s.ticks + 1 }, Res.ok ())
    else (s, Res.timedOut)

/-- `log(msg)` (src/main.py:70-71): append to the shared messages list. -/
def logM (m : String) : M Unit := fun s => ({ s with msgs := s.msgs ++ [m] }, Res.ok ())

/-- An exception escaping the coroutine (only `uc.start`). -/
def raiseM (e : String) : M Unit := fun s => (s, Res.raised e)

/-- `result["mobile_number"] = ...; result["success"] = True`
(src/main.py:303-304). -/
def setMob (v : String) : M Unit := fun s =>
  ({ s with mobile := some v, succ := true }, Res.ok ())

/-- One interaction of the flow with the driver: the outcome of a
`page.select(...)` (`Option Unit`: found / not found, or raised) and of a
`.click()`, and the scripted steps as `page.evaluate` outcomes, in program
order of src/main.py:89-304 plus the two `clear_storage` calls. -/
structure Driver where
  start : Except String Unit
  get : Except String Unit
  clearStorageStart : Except String EvalResult
  modalSelect : Except String (Option Unit)
  modalClick : Except String Unit
  rtoSelect : Except String (Option Unit)
  rtoClick : Except String Unit
  setRto : Except String EvalResult
  clickCheckbox : Except String EvalResult
  proceed1 : Except String EvalResult
  findPF : Except String EvalResult
  clickPF : Except String EvalResult
  openServices : Except String EvalResult
  openRC : Except String EvalResult
  openReschedule : Except String EvalResult
  fillForm : Except String EvalResult
  validate : Except String EvalResult
  getMobile : Except String EvalResult
  clearStorageEnd : Except String EvalResult
  deriving Repr

/-- `step_js` (src/main.py:73-76): evaluate the script, log
`f"{label}: {out}"`, return the text. -/
def step_js (label : String) (r : Except String EvalResult) : M String := do
  tick
  let out := execute_js_and_get_text r
  logM (label ++ ": " ++ out)
  pure out

/-- Modal-close block (src/main.py:97-108): select `.btn-close`; if found,
pause and click, logging "Modal dialog closed" and pausing again; a raise
from select or click is logged as "Modal close error: ...". -/
def modalPhase (d : Driver) : M Unit := do
  tick
  match d.modalSelect with
  | .error e => logM ("Modal close error: " ++ e)
  | .ok none => logM "Modal dialog not found"
  | .ok (some _) => do
    tick
    tick
    match d.modalClick with
    | .error e => logM ("Modal close error: " ++ e)
    | .ok _ => do
      logM "Modal dialog closed"
      tick

/-- RTO dropdown block (src/main.py:110-121): select the label; if found,
click it, logging "Clicked RTO dropdown" and pausing; a raise from select
or click is logged as "RTO dropdown click error: ...". -/
def rtoPhase (d : Driver) : M Unit := do
  tick
  match d.rtoSelect with
  | .error e => logM ("RTO dropdown click error: " ++ e)
  | .ok none => logM "RTO dropdown not found"
  | .ok (some _) => do
    tick
    match d.rtoClick with
    | .error e => logM ("RTO dropdown click error: " ++ e)
    | .ok _ => do
      logM "Clicked RTO dropdown"
      tick

/-- Final extraction (src/main.py:292-304): run the "Get mobile" script;
if the marker occurs in the text, record the extracted value and set
success. -/
def getMobilePhase (d : Driver) : M Unit := do
  let mob_out ← step_js "Get mobile" d.getMobile
  match parseMobile mob_out with
  | some v => setMob v
  | none => pure ()

/-- The conditional click at src/main.py:192-212: the "Click PF proceed"
step runs only when the "Find PF proceed" output contained the marker. -/
def pfClickPhase (d : Driver) (pf_find : String) : M Unit :=
  if strContains pf_find "SUCCESS" then do
    let _ ← step_js "Click PF proceed" d.clickPF
    pure ()
  else pure ()

/-- Fill form onwards (src/main.py:254-304): on `"SUCCESS" not in
fill_out` the function returns early (src/main.py:270-271); otherwise the
"Validate" step runs — its output `val_out` (src/main.py:274) is assigned
but never tested — and then the extraction. -/
def fillPhase (d : Driver) : M Unit := do
  let fill_out ← step_js "Fill form" d.fillForm
  if strContains fill_out "SUCCESS" then do
    tick
    let _ ← step_js "Validate" d.validate
    tick
    getMobilePhase d
  else pure ()

/-- The flow after `page = await browser.get(url)` succeeded
(src/main.py:94-304): pacing delays, storage clear, modal and RTO blocks,
the scripted steps, then `fillPhase`. -/
def flowAfterGet (d : Driver) : M Unit := do
  tick
  tick
  modalPhase d
  tick
  rtoPhase d
  let _ ← step_js "Set RTO" d.setRto
  tick
  let _ ← step_js "Click checkbox" d.clickCheckbox
  tick
  let _ ← step_js "Proceed #1" d.proceed1
  tick
  let pf_find ← step_js "Find PF proceed" d.findPF
  pfClickPhase d pf_find
  tick
  let _ ← step_js "Open Services" d.openServices
  tick
  let _ ← step_js "Open RC Related Services" d.openRC
  tick
  let _ ← step_js "Open Re-Schedule link" d.openReschedule
  tick
  fillPhase d

/-- Body of the `try` at src/main.py:90-305: log, navigate; a raise from
`browser.get` is caught by the `except Exception` at line 306 and logged
as "Error: ...". -/
def tryBody (d : Driver) : M Unit := do
  logM "Loading website..."
  tick
  match d.get with
  | .error e => logM ("Error: " ++ e)
  | .ok _ => flowAfterGet d

/-- The `finally` at src/main.py:308-319: a pacing delay and, when the
page was obtained, a best-effort storage clear; `browser.stop()` is
synchronous and has no observable effect on the result.  Nothing here
logs or writes the result; its awaits are still cancellation points. -/
def finallyBlock (pageOk : Bool) : M Unit := do
  tick
  if pageOk then tick else pure ()

/-- `main()` (src/main.py:78-319): the startup log, `uc.start` (whose
raise escapes `main` since it precedes the `try`), then the try body and
the finally block. -/
def mainFlow (d : Driver) : M Unit := do
  logM "Starting NoDriver automation..."
  tick
  match d.start with
  | .error e => raiseM e
  | .ok _ => do
    tryBody d
    finallyBlock (match d.get with | .ok _ => true | .error _ => false)

/-- Initial state of one run: empty log, no value, success false. -/
def initSt (dl : Option Nat) : St :=
  { deadline := dl, ticks := 0, msgs := [], mobile := none, succ := false }

/-- What `run_flow` produces: either the result dict or a propagated
exception; whether `shutil.rmtree(temp_profile)` (src/main.py:327-330)
executed; whether the `except asyncio.TimeoutError` branch ran. -/
structure RunOutcome where
  result : Except String FlowResult
  profileRemoved : Bool
  timedOut : Bool
  deriving Repr

/-- `run_flow` (src/main.py:59-332).  `await asyncio.wait_for(main(),
timeout_sec)` either completes, times out (append "ERROR: Flow timed out"
and fall through to cleanup), or re-raises an exception from `main` — in
which case the `except asyncio.TimeoutError` does not match, the function
propagates the exception, and the `shutil.rmtree` cleanup (which is NOT
in a finally) is skipped.  `dl` is the deadline in completed awaits,
abstracting `timeout_sec` wall-clock seconds. -/
def run_flow (req : RunRequest) (d : Driver) (dl : Option Nat) : RunOutcome :=
  match mainFlow d (initSt dl) with
  | (s, Res.ok _) =>
    { result := .ok { success := s.succ, mobile_number := s.mobile, messages := s.msgs },
      profileRemoved := true, timedOut := false }
  | (s, Res.timedOut) =>
    { result := .ok { success := s.succ, mobile_number := s.mobile,
                      messages := s.msgs ++ ["ERROR: Flow timed out"] },
      profileRemoved := true, timedOut := true }
  | (_, Res.raised e) =>
    { result := .error e, profileRemoved := false, timedOut := false }

/-- `_child_run_flow` (src/main.py:335-346): the result the child
serializes — the `run_flow` result, or the synthesized
`{"success": False, "mobile_number": None, "details": {"messages":
["child_error: ..."]}}` when `asyncio.run(run_flow(...))` raised. -/
def child_run_flow (runOutcome : Except String FlowResult) : FlowResult :=
  match runOutcome with
  | .ok r => r
  | .error e => { success := false, mobile_number := none, messages := ["child_error: " ++ e] }

/-- The handoff artifact content (src/main.py:347-352): the child writes
`child_run_flow` of its outcome, unless the `open`/`json.dump` itself
raised (swallowed by the bare `except`), leaving no artifact. -/
def childPersist (writeOk : Bool) (runOutcome : Except String FlowResult) : Option FlowResult :=
  if writeOk then some (child_run_flow runOutcome) else none

/-- The fixed grace period of `p.join(timeout_sec + 60)` (src/main.py:361). -/
def gracePeriodSec : Nat := 60

/-- How long the parent waits on the child before declaring it hung. -/
def childJoinBudget (timeout_sec : Nat) : Nat := timeout_sec + gracePeriodSec

/-- What the parent observes of the child (src/main.py:360-374): whether
`p.is_alive()` still holds after `p.join(timeout_sec + 60)`, and — when it
exited — the outcome of `open(out_path)` + `json.load` (`Except.error`
carries `str(e)` of the raised exception: missing file or parse failure). -/
structure ChildObs where
  hangs : Bool
  read : Except String FlowResult
  deriving Repr

/-- `_run_in_child_sync` (src/main.py:354-380): returns the result dict
and whether `p.terminate()` was invoked.  A hung child is terminated and
the `child_timeout` result synthesized; a read/parse failure synthesizes
the `read_error: ...` result; otherwise the artifact content is returned. -/
def run_in_child_sync (req : RunRequest) (obs : ChildObs) : FlowResult × Bool :=
  if obs.hangs then
    ({ success := false, mobile_number := none, messages := ["child_timeout"] }, true)
  else
    match obs.read with
    | .ok r => (r, false)
    | .error c =>
      ({ success := false, mobile_number := none, messages := ["read_error: " ++ c] }, false)

/-- The concrete request of the spec's concrete scenario (section 8). -/
def cReq : RunRequest :=
  { reg_no := "DL1ABC1234", chassis_no := "MA3ERLF1S00123456", rto_value := "53",
    headless := true, timeout_sec := 120 }

/-- A driver whose every interaction succeeds, every scripted step returns
a success marker, and extraction returns "SUCCESS: 9876543210". -/
def allOkDriver : Driver :=
  { start := .ok (), get := .ok (),
    clearStorageStart := .ok (.raw "SUCCESS: storage cleared"),
    modalSelect := .ok (some ()), modalClick := .ok (),
    rtoSelect := .ok (some ()), rtoClick := .ok (),
    setRto := .ok (.raw "SUCCESS"),
    clickCheckbox := .ok (.raw "SUCCESS"),
    proceed1 := .ok (.raw "SUCCESS: via ID"),
    findPF := .ok (.raw "SUCCESS: id=j_idt444"),
    clickPF := .ok (.raw "SUCCESS: PF.ab"),
    openServices := .ok (.raw "SUCCESS"),
    openRC := .ok (.raw "SUCCESS"),
    openReschedule := .ok (.raw "SUCCESS: mojarra"),
    fillForm := .ok (.raw "SUCCESS"),
    validate := .ok (.raw "SUCCESS: PF.ab"),
    getMobile := .ok (.raw "SUCCESS: 9876543210"),
    clearStorageEnd := .ok (.raw "SUCCESS: storage cleared") }

/-- The messages a fully successful run logs, in order. -/
def allOkMessages : List String :=
  [ "Starting NoDriver automation...",
    "Loading website...",
    "Modal dialog closed",
    "Clicked RTO dropdown",
    "Set RTO: SUCCESS",
    "Click checkbox: SUCCESS",
    "Proceed #1: SUCCESS: via ID",
    "Find PF proceed: SUCCESS: id=j_idt444",
    "Click PF proceed: SUCCESS: PF.ab",
    "Open Services: SUCCESS",
    "Open RC Related Services: SUCCESS",
    "Open Re-Schedule link: SUCCESS: mojarra",
    "Fill form: SUCCESS",
    "Validate: SUCCESS: PF.ab",
    "Get mobile: SUCCESS: 9876543210" ]

/-- The result of the fully successful run. -/
def allOkResult : FlowResult :=
  { success := true, mobile_number := some "9876543210", messages := allOkMessages }

/-- All-success driver except the extraction field value is the empty
string, so the "Get mobile" script text is exactly "SUCCESS: ". -/
def emptyMobileDriver : Driver :=
  { allOkDriver with getMobile := .ok (.raw "SUCCESS: ") }

/-- Result of running `emptyMobileDriver`: success with an empty value. -/
def emptyMobileResult : FlowResult :=
  { success := true, mobile_number := some "",
    messages := allOkMessages.take 14 ++ ["Get mobile: SUCCESS: "] }

/-- All-success driver except "Validate" fails with "ERROR: btn". -/
def valFailDriver : Driver :=
  { allOkDriver with validate := .ok (.raw "ERROR: btn") }

/-- Result of running `valFailDriver`: the flow still reaches extraction. -/
def valFailResult : FlowResult :=
  { success := true, mobile_number := some "9876543210",
    messages := allOkMessages.take 13 ++
      ["Validate: ERROR: btn", "Get mobile: SUCCESS: 9876543210"] }

/-- All-success driver except `uc.start` raises "boom". -/
def startFailDriver : Driver :=
  { allOkDriver with start := .error "boom" }

/-- All-success driver except the extraction text contains the marker but
not as a prefix. -/
def markerNotPrefixDriver : Driver :=
  { allOkDriver with getMobile := .ok (.raw "ERROR: SUCCESS: 99") }

/-- Result of running `markerNotPrefixDriver`. -/
def markerNotPrefixResult : FlowResult :=
  { success := true, mobile_number := some "99",
    messages := allOkMessages.take 14 ++ ["Get mobile: ERROR: SUCCESS: 99"] }

/-- Result when the deadline expires at the first await of the `finally`
block of a fully successful run (the 33rd await, so deadline 32). -/
def lateTimeoutResult : FlowResult :=
  { success := true, mobile_number := some "9876543210",
    messages := allOkMessages ++ ["ERROR: Flow timed out"] }

/-- A `FlowResult`'s extracted value was produced by a success-marked
outcome of the final extraction step: the marker occurs in some "Get
mobile" text logged in the messages, and the value is the stripped text
after its first occurrence. -/
def ProducedByGetMobile (r : FlowResult) : Prop :=
  ∃ mo, strContains mo "SUCCESS:" = true ∧
    r.mobile_number = some (extractAfterMarker mo) ∧
    ("Get mobile: " ++ mo) ∈ r.messages

/-! ## Invariant machinery

`StepOk f` says a piece of the coroutine only ever appends to the log and
either leaves the result fields (`mobile`, `succ`) untouched or has
established that they were set from a success-marked "Get mobile" outcome.
-/

/-- The result fields were produced by a success-marked outcome of the
final extraction step: success is set, and the stored value is the
stripped text after the first marker occurrence in some extraction text
whose "Get mobile" log entry is present. -/
def GotMobile (s : St) : Prop :=
  s.succ = true ∧ ∃ mo, strContains mo "SUCCESS:" = true ∧
    s.mobile = some (extractAfterMarker mo) ∧ ("Get mobile: " ++ mo) ∈ s.msgs

/-- A coroutine fragment appends to the log and either preserves the
result fields or establishes `GotMobile`. -/
def StepOk {α : Type} (f : M α) : Prop :=
  ∀ s : St, (∃ t, ((f s).1).msgs = s.msgs ++ t) ∧
    ((((f s).1).mobile = s.mobile ∧ ((f s).1).succ = s.succ) ∨ GotMobile (f s).1)

theorem bind_eq {α β : Type} (x : M α) (f : α → M β) : x >>= f = Mbind x f := rfl

theorem pure_eq {α : Type} (a : α) : (pure a : M α) = Mpure a := rfl

theorem tick_cases (s : St) :
    tick s = ({ s with ticks := s.ticks + 1 }, Res.ok ()) ∨ tick s = (s, Res.timedOut) := by
  unfold tick
  cases s.deadline with
  | none => exact Or.inl rfl
  | some n =>
    by_cases h : s.ticks < n
    · simp [h]
    · simp [h]

theorem stepOk_tick : StepOk tick := by
  intro s
  rcases tick_cases s with h | h <;> rw [h]
  · exact ⟨⟨[], by simp⟩, Or.inl ⟨rfl, rfl⟩⟩
  · exact ⟨⟨[], by simp⟩, Or.inl ⟨rfl, rfl⟩⟩

theorem stepOk_logM (m : String) : StepOk (logM m) :=
  fun _ => ⟨⟨[m], rfl⟩, Or.inl ⟨rfl, rfl⟩⟩

theorem stepOk_raiseM (e : String) : StepOk (raiseM e) :=
  fun s => ⟨⟨[], by simp [raiseM]⟩, Or.inl ⟨rfl, rfl⟩⟩

theorem stepOk_pure {α : Type} (a : α) : StepOk (Mpure a) :=
  fun s => ⟨⟨[], by simp [Mpure]⟩, Or.inl ⟨rfl, rfl⟩⟩

theorem stepOk_pure' {α : Type} (a : α) : StepOk (pure a : M α) := stepOk_pure a

/-- Destructured form of `StepOk`. -/
theorem stepOk_elim {α : Type} {f : M α} (h : StepOk f) {s s' : St} {r : Res α}
    (he : f s = (s', r)) :
    (∃ t, s'.msgs = s.msgs ++ t) ∧
      ((s'.mobile = s.mobile ∧ s'.succ = s.succ) ∨ GotMobile s') := by
  have hs := h s
  rw [he] at hs
  exact hs

theorem Mbind_ok {α β : Type} {x : M α} {f : α → M β} {s s1 : St} {a : α}
    (h : x s = (s1, Res.ok a)) : (x >>= f) s = f a s1 := by
  rw [bind_eq]; unfold Mbind; rw [h]

theorem Mbind_timedOut {α β : Type} {x : M α} {f : α → M β} {s s1 : St}
    (h : x s = (s1, Res.timedOut)) : (x >>= f) s = (s1, Res.timedOut) := by
  rw [bind_eq]; unfold Mbind; rw [h]

theorem Mbind_raised {α β : Type} {x : M α} {f : α → M β} {s s1 : St} {e : String}
    (h : x s = (s1, Res.raised e)) : (x >>= f) s = (s1, Res.raised e) := by
  rw [bind_eq]; unfold Mbind; rw [h]

theorem stepOk_bind {α β : Type} {x : M α} {f : α → M β}
    (hx : StepOk x) (hf : ∀ a, StepOk (f a)) : StepOk (x >>= f) := by
  intro s
  rcases hx1 : x s with ⟨s1, r⟩
  have hxs := stepOk_elim hx hx1
  cases r with
  | ok a =>
    rcases hf1 : f a s1 with ⟨s2, r2⟩
    have hfa := stepOk_elim (hf a) hf1
    have he : (x >>= f) s = (s2, r2) := by rw [Mbind_ok hx1, hf1]
    rw [he]
    obtain ⟨⟨t1, ht1⟩, hm1⟩ := hxs
    obtain ⟨⟨t2, ht2⟩, hm2⟩ := hfa
    refine ⟨⟨t1 ++ t2, ?_⟩, ?_⟩
    · show s2.msgs = s.msgs ++ (t1 ++ t2)
      rw [ht2, ht1, List.append_assoc]
    · rcases hm2 with ⟨e1, e2⟩ | g2
      · rcases hm1 with ⟨d1, d2⟩ | g1
        · refine Or.inl ⟨?_, ?_⟩
          · show s2.mobile = s.mobile; rw [e1, d1]
          · show s2.succ = s.succ; rw [e2, d2]
        · obtain ⟨gs, mo, hc, hmm, hmem⟩ := g1
          refine Or.inr ⟨?_, mo, hc, ?_, ?_⟩
          · show s2.succ = true; rw [e2, gs]
          · show s2.mobile = some (extractAfterMarker mo); rw [e1, hmm]
          · show ("Get mobile: " ++ mo) ∈ s2.msgs
            rw [ht2]; exact List.mem_append.mpr (Or.inl hmem)
      · exact Or.inr g2
  | timedOut =>
    have he : (x >>= f) s = (s1, Res.timedOut) := Mbind_timedOut hx1
    rw [he]; exact hxs
  | raised e =>
    have he : (x >>= f) s = (s1, Res.raised e) := Mbind_raised hx1
    rw [he]; exact hxs

theorem stepOk_ite {α : Type} {c : Prop} [Decidable c] {A B : M α}
    (hA : StepOk A) (hB : StepOk B) : StepOk (if c then A else B) := by
  by_cases h : c
  · simpa [h] using hA
  · simpa [h] using hB

theorem stepOk_step_js (label : String) (r : Except String EvalResult) :
    StepOk (step_js label r) := by
  intro s
  rcases tick_cases s with h | h <;>
    simp only [step_js, bind_eq, Mbind, h, logM, pure_eq, Mpure]
  · refine ⟨⟨[label ++ ": " ++ execute_js_and_get_text r], ?_⟩, Or.inl ⟨?_, ?_⟩⟩ <;> trivial
  · refine ⟨⟨[], ?_⟩, Or.inl ⟨?_, ?_⟩⟩ <;> simp

theorem stepOk_modalPhase (d : Driver) : StepOk (modalPhase d) := by
  unfold modalPhase
  apply stepOk_bind stepOk_tick
  intro _
  cases d.modalSelect with
  | error e => exact stepOk_logM _
  | ok o =>
    cases o with
    | none => exact stepOk_logM _
    | some u =>
      apply stepOk_bind stepOk_tick; intro _
      apply stepOk_bind stepOk_tick; intro _
      cases d.modalClick with
      | error e => exact stepOk_logM _
      | ok _ =>
        apply stepOk_bind (stepOk_logM _); intro _
        exact stepOk_tick

theorem stepOk_rtoPhase (d : Driver) : StepOk (rtoPhase d) := by
  unfold rtoPhase
  apply stepOk_bind stepOk_tick
  intro _
  cases d.rtoSelect with
  | error e => exact stepOk_logM _
  | ok o =>
    cases o with
    | none => exact stepOk_logM _
    | some u =>
      apply stepOk_bind stepOk_tick; intro _
      cases d.rtoClick with
      | error e => exact stepOk_logM _
      | ok _ =>
        apply stepOk_bind (stepOk_logM _); intro _
        exact stepOk_tick

theorem stepOk_getMobilePhase (d : Driver) : StepOk (getMobilePhase d) := by
  intro s
  rcases tick_cases s with h | h <;>
    simp only [getMobilePhase, step_js, bind_eq, Mbind, h, logM, pure_eq, Mpure]
  · rcases hp : parseMobile (execute_js_and_get_text d.getMobile) with _ | v <;>
      simp only [hp]
    · refine ⟨⟨["Get mobile" ++ ": " ++ execute_js_and_get_text d.getMobile], ?_⟩,
        Or.inl ⟨?_, ?_⟩⟩ <;> trivial
    · refine ⟨⟨["Get mobile" ++ ": " ++ execute_js_and_get_text d.getMobile], ?_⟩, Or.inr ?_⟩
      · trivial
      unfold parseMobile at hp
      by_cases hc : strContains (execute_js_and_get_text d.getMobile) "SUCCESS:"
      · rw [if_pos hc] at hp
        refine ⟨?_, execute_js_and_get_text d.getMobile, hc, ?_, ?_⟩
        · show (setMob v _).1.succ = true
          simp [setMob]
        · show (setMob v _).1.mobile = some (extractAfterMarker (execute_js_and_get_text d.getMobile))
          simp only [setMob]
          exact congrArg some (Option.some.inj hp).symm
        · show ("Get mobile: " ++ execute_js_and_get_text d.getMobile) ∈ (setMob v _).1.msgs
          simp only [setMob]
          have hlab : "Get mobile" ++ ": " ++ execute_js_and_get_text d.getMobile
              = "Get mobile: " ++ execute_js_and_get_text d.getMobile := rfl
          rw [← hlab]
          exact List.mem_append.mpr (Or.inr (List.mem_singleton.mpr rfl))
      · rw [if_neg hc] at hp
        exact absurd hp (by simp)
  · refine ⟨⟨[], ?_⟩, Or.inl ⟨?_, ?_⟩⟩ <;> simp

theorem stepOk_pfClickPhase (d : Driver) (pf_find : String) :
    StepOk (pfClickPhase d pf_find) := by
  unfold pfClickPhase
  apply stepOk_ite
  · apply stepOk_bind (stepOk_step_js _ _); intro _
    exact stepOk_pure' ()
  · exact stepOk_pure' ()

theorem stepOk_fillPhase (d : Driver) : StepOk (fillPhase d) := by
  unfold fillPhase
  apply stepOk_bind (stepOk_step_js _ _); intro fill_out
  apply stepOk_ite
  · apply stepOk_bind stepOk_tick; intro _
    apply stepOk_bind (stepOk_step_js _ _); intro _
    apply stepOk_bind stepOk_tick; intro _
    exact stepOk_getMobilePhase d
  · exact stepOk_pure' ()

theorem stepOk_flowAfterGet (d : Driver) : StepOk (flowAfterGet d) := by
  unfold flowAfterGet
  apply stepOk_bind stepOk_tick; intro _
  apply stepOk_bind stepOk_tick; intro _
  apply stepOk_bind (stepOk_modalPhase d); intro _
  apply stepOk_bind stepOk_tick; intro _
  apply stepOk_bind (stepOk_rtoPhase d); intro _
  apply stepOk_bind (stepOk_step_js _ _); intro _
  apply stepOk_bind stepOk_tick; intro _
  apply stepOk_bind (stepOk_step_js _ _); intro _
  apply stepOk_bind stepOk_tick; intro _
  apply stepOk_bind (stepOk_step_js _ _); intro _
  apply stepOk_bind stepOk_tick; intro _
  apply stepOk_bind (stepOk_step_js _ _); intro pf_find
  apply stepOk_bind (stepOk_pfClickPhase d pf_find); intro _
  apply stepOk_bind stepOk_tick; intro _
  apply stepOk_bind (stepOk_step_js _ _); intro _
  apply stepOk_bind stepOk_tick; intro _
  apply stepOk_bind (stepOk_step_js _ _); intro _
  apply stepOk_bind stepOk_tick; intro _
  apply stepOk_bind (stepOk_step_js _ _); intro _
  apply stepOk_bind stepOk_tick; intro _
  exact stepOk_fillPhase d

theorem stepOk_tryBody (d : Driver) : StepOk (tryBody d) := by
  unfold tryBody
  apply stepOk_bind (stepOk_logM _); intro _
  apply stepOk_bind stepOk_tick; intro _
  cases d.get with
  | error e => exact stepOk_logM _
  | ok _ => exact stepOk_flowAfterGet d

theorem stepOk_finallyBlock (pageOk : Bool) : StepOk (finallyBlock pageOk) := by
  unfold finallyBlock
  apply stepOk_bind stepOk_tick; intro _
  apply stepOk_ite stepOk_tick (stepOk_pure' ())

theorem stepOk_mainFlow (d : Driver) : StepOk (mainFlow d) := by
  unfold mainFlow
  apply stepOk_bind (stepOk_logM _); intro _
  apply stepOk_bind stepOk_tick; intro _
  cases d.start with
  | error e => exact stepOk_raiseM e
  | ok _ =>
    apply stepOk_bind (stepOk_tryBody d); intro _
    exact stepOk_finallyBlock _

/-! ## Consequences for whole runs -/

/-- Every returned result dict either has untouched result fields
(`mobile_number` absent, `success` false) or was produced by a
success-marked outcome of the final extraction step. -/
theorem run_flow_ok_inv (req : RunRequest) (d : Driver) (dl : Option Nat) (r : FlowResult)
    (h : (run_flow req d dl).result = Except.ok r) :
    (r.mobile_number = none ∧ r.success = false) ∨ ProducedByGetMobile r := by
  unfold run_flow at h
  rcases hm : mainFlow d (initSt dl) with ⟨s, res⟩
  have hse := stepOk_elim (stepOk_mainFlow d) hm
  have hmob : (s.mobile = none ∧ s.succ = false) ∨ GotMobile s := by
    rcases hse.2 with ⟨h1, h2⟩ | hg
    · exact Or.inl ⟨h1, h2⟩
    · exact Or.inr hg
  rw [hm] at h
  cases res with
  | ok a =>
    have h2 : Except.ok ({ success := s.succ, mobile_number := s.mobile,
                           messages := s.msgs } : FlowResult) = Except.ok r := h
    injection h2 with h3
    subst h3
    rcases hmob with ⟨hn, hf⟩ | ⟨hgs, mo, hc, hmm, hmem⟩
    · exact Or.inl ⟨hn, hf⟩
    · exact Or.inr ⟨mo, hc, hmm, hmem⟩
  | timedOut =>
    have h2 : Except.ok ({ success := s.succ, mobile_number := s.mobile,
                           messages := s.msgs ++ ["ERROR: Flow timed out"] } : FlowResult)
        = Except.ok r := h
    injection h2 with h3
    subst h3
    rcases hmob with ⟨hn, hf⟩ | ⟨hgs, mo, hc, hmm, hmem⟩
    · exact Or.inl ⟨hn, hf⟩
    · exact Or.inr ⟨mo, hc, hmm, List.mem_append.mpr (Or.inl hmem)⟩
  | raised e =>
    have h2 : Except.error e = Except.ok r := h
    exact Except.noConfusion h2

/-! ## The claims -/

/-- C1 counterexample: against a driver whose extraction step returns
"SUCCESS: " (present field, empty value), `run_flow` returns success=true
with `mobile_number` the EMPTY string, refuting "success=true implies
mobile_number is ... non-empty". -/
theorem run_flow_success_empty_mobile_cex :
    (run_flow cReq emptyMobileDriver none).result = Except.ok emptyMobileResult ∧
    emptyMobileResult.success = true ∧
    emptyMobileResult.mobile_number = some "" := by
  refine ⟨?_, rfl, rfl⟩
  rfl

/-- C1 (amended): for every execution of `run_flow`, whatever the driver,
deadline and request, if a result dict is returned then success=true
implies `mobile_number` is present (a possibly empty string), and
`mobile_number` present implies it was produced by a success-marked
outcome of the final extraction step "Get mobile" (the marker occurs in
the logged "Get mobile" text and the value is the stripped text after its
first occurrence). -/
theorem run_flow_mobile_origin (req : RunRequest) (d : Driver) (dl : Option Nat)
    (r : FlowResult) (h : (run_flow req d dl).result = Except.ok r) :
    (r.success = true → ∃ v, r.mobile_number = some v) ∧
    (∀ v, r.mobile_number = some v → ProducedByGetMobile r) := by
  rcases run_flow_ok_inv req d dl r h with ⟨hn, hf⟩ | hp
  · constructor
    · intro hs
      rw [hf] at hs
      exact absurd hs (by decide)
    · intro v hv
      rw [hn] at hv
      exact absurd hv (by simp)
  · constructor
    · intro _
      obtain ⟨mo, hc, hmm, hmem⟩ := hp
      exact ⟨extractAfterMarker mo, hmm⟩
    · intro v hv
      exact hp

/-- C1 witness: the amended statement instantiated at the all-success
driver. -/
theorem run_flow_mobile_origin_w :
    (run_flow cReq allOkDriver none).result = Except.ok allOkResult ∧
    ((allOkResult.success = true → ∃ v, allOkResult.mobile_number = some v) ∧
     (∀ v, allOkResult.mobile_number = some v → ProducedByGetMobile allOkResult)) :=
  ⟨rfl, run_flow_mobile_origin cReq allOkDriver none allOkResult rfl⟩

/-- C2: the code contradicts the short-circuit claim for the "Validate"
step: with "Fill form" succeeding, "Validate" returning "ERROR: btn" and
"Get mobile" succeeding, the flow still logs a "Get mobile" entry and
returns success=true — `val_out` (src/main.py:274) is never tested.  The
"Fill form" short-circuit (src/main.py:270-271) does hold. -/
theorem run_flow_validate_not_fatal :
    (run_flow cReq valFailDriver none).result = Except.ok valFailResult ∧
    valFailResult.success = true ∧
    "Validate: ERROR: btn" ∈ valFailResult.messages ∧
    "Get mobile: SUCCESS: 9876543210" ∈ valFailResult.messages := by
  refine ⟨?_, rfl, ?_, ?_⟩
  · rfl
  · decide
  · decide

/-- C3: when the browser session start (`uc.start`, src/main.py:89)
raises, the exception propagates out of `run_flow` (the `except` at
src/main.py:323 catches only `asyncio.TimeoutError`) and the
`shutil.rmtree(temp_profile)` cleanup at src/main.py:327 — which is not
in a `finally` — is skipped: the temporary profile directory survives. -/
theorem run_flow_start_raise_skips_cleanup :
    run_flow cReq startFailDriver none =
      { result := Except.error "boom", profileRemoved := false, timedOut := false } ∧
    (run_flow cReq startFailDriver none).profileRemoved = false := by
  constructor
  · rfl
  · rfl

/-- C4 counterexample: with every step succeeding and the deadline
expiring at the first await of the `finally` block (the 33rd await,
deadline 32) — i.e. after the extraction already recorded success —
`run_flow` takes the timeout path yet returns success=TRUE together with
the timeout log entry, refuting "returns a FlowResult with
success=false". -/
theorem run_flow_late_timeout_cex :
    (run_flow cReq allOkDriver (some 32)).timedOut = true ∧
    (run_flow cReq allOkDriver (some 32)).result = Except.ok lateTimeoutResult ∧
    lateTimeoutResult.success = true ∧
    "ERROR: Flow timed out" ∈ lateTimeoutResult.messages := by
  refine ⟨rfl, ?_, rfl, ?_⟩
  · rfl
  · exact List.mem_append.mpr (Or.inr (List.mem_singleton.mpr rfl))

/-- C4 (amended): for every run whose inner deadline expires before the
coroutine completes, `run_flow` returns a result dict (no exception) that
contains the log entry "ERROR: Flow timed out", and the in-flight flow is
abandoned at the expiry point; its success flag is false unless the final
extraction step had already recorded a success-marked outcome before the
deadline expired. -/
theorem run_flow_timeout_log (req : RunRequest) (d : Driver) (dl : Option Nat)
    (h : (run_flow req d dl).timedOut = true) :
    ∃ r, (run_flow req d dl).result = Except.ok r ∧
      "ERROR: Flow timed out" ∈ r.messages ∧
      (r.success = true → ProducedByGetMobile r) := by
  unfold run_flow at h ⊢
  rcases hm : mainFlow d (initSt dl) with ⟨s, res⟩
  have hse := stepOk_elim (stepOk_mainFlow d) hm
  cases res with
  | ok a =>
    rw [hm] at h
    exact absurd h (by simp)
  | raised e =>
    rw [hm] at h
    exact absurd h (by simp)
  | timedOut =>
    refine ⟨{ success := s.succ, mobile_number := s.mobile,
              messages := s.msgs ++ ["ERROR: Flow timed out"] }, rfl, ?_, ?_⟩
    · exact List.mem_append.mpr (Or.inr (List.mem_singleton.mpr rfl))
    · intro hs
      rcases hse.2 with ⟨h1, h2⟩ | hg
      · exact absurd ((show s.succ = false from h2).symm.trans
          (show s.succ = true from hs)) (by decide)
      · obtain ⟨hgs, mo, hc, hmm, hmem⟩ := hg
        exact ⟨mo, hc, hmm, List.mem_append.mpr (Or.inl hmem)⟩

/-- C4 witness: the amended statement instantiated at the all-success
driver with deadline 32. -/
theorem run_flow_timeout_log_w :
    (run_flow cReq allOkDriver (some 32)).timedOut = true ∧
    (∃ r, (run_flow cReq allOkDriver (some 32)).result = Except.ok r ∧
      "ERROR: Flow timed out" ∈ r.messages ∧
      (r.success = true → ProducedByGetMobile r)) :=
  ⟨rfl, run_flow_timeout_log cReq allOkDriver (some 32) rfl⟩

/-- C5: for every request, if the child process is still alive after
`p.join(timeout_sec + 60)` (src/main.py:361-362), the parent terminates
it and returns exactly the synthesized result
`{success: false, mobile_number: none, messages: ["child_timeout"]}`. -/
theorem child_timeout_synthesized (req : RunRequest) (obs : ChildObs)
    (h : obs.hangs = true) :
    run_in_child_sync req obs =
      ({ success := false, mobile_number := none, messages := ["child_timeout"] }, true) := by
  simp [run_in_child_sync, h]

/-- C5 witness. -/
theorem child_timeout_synthesized_w :
    run_in_child_sync cReq { hangs := true, read := Except.error "ignored" } =
      ({ success := false, mobile_number := none, messages := ["child_timeout"] }, true) :=
  child_timeout_synthesized cReq { hangs := true, read := Except.error "ignored" } rfl

/-- C6 counterexample: the source locates the marker ANYWHERE in the
extraction text, not as a prefix: on text "ERROR: SUCCESS: 99" the
spec-modelled prefix parser extracts nothing, yet `run_flow` returns
success=true with the value "99" taken after the first marker occurrence.
This refutes "the extracted value equals exactly the text after the
success marker prefix ... if the marker is absent, success=false". -/
theorem marker_not_prefix_cex :
    (run_flow cReq markerNotPrefixDriver none).result = Except.ok markerNotPrefixResult ∧
    markerNotPrefixResult.success = true ∧
    markerNotPrefixResult.mobile_number = some "99" ∧
    parseMobileSpec "ERROR: SUCCESS: 99" = none := by
  refine ⟨?_, rfl, rfl, ?_⟩
  · rfl
  · decide

/-- C6 (amended): for every extraction-step result text, the extraction
phase never raises; when it completes normally, if the marker "SUCCESS:"
occurs anywhere in the text the extracted value is the text after its
FIRST occurrence with surrounding whitespace stripped and success is set,
and if the marker does not occur the phase leaves success=false and
mobile_number absent. -/
theorem getMobile_marker_parse (d : Driver) (st : St)
    (hsucc : st.succ = false) (hmob : st.mobile = none) :
    (∀ e, (getMobilePhase d st).2 ≠ Res.raised e) ∧
    ((getMobilePhase d st).2 = Res.ok () →
      (strContains (execute_js_and_get_text d.getMobile) "SUCCESS:" = true →
        (getMobilePhase d st).1.succ = true ∧
        (getMobilePhase d st).1.mobile =
          some (extractAfterMarker (execute_js_and_get_text d.getMobile))) ∧
      (strContains (execute_js_and_get_text d.getMobile) "SUCCESS:" = false →
        (getMobilePhase d st).1.succ = false ∧
        (getMobilePhase d st).1.mobile = none)) := by
  rcases tick_cases st with h | h
  · rcases hp : parseMobile (execute_js_and_get_text d.getMobile) with _ | v
    · have hok : (getMobilePhase d st).2 = Res.ok () := by
        simp only [getMobilePhase, step_js, bind_eq, Mbind, h, logM, pure_eq, Mpure, hp]
      have hsu : (getMobilePhase d st).1.succ = st.succ := by
        simp only [getMobilePhase, step_js, bind_eq, Mbind, h, logM, pure_eq, Mpure, hp]
      have hmo : (getMobilePhase d st).1.mobile = st.mobile := by
        simp only [getMobilePhase, step_js, bind_eq, Mbind, h, logM, pure_eq, Mpure, hp]
      refine ⟨?_, ?_⟩
      · intro e heq
        rw [hok] at heq
        exact Res.noConfusion heq
      · intro _
        constructor
        · intro hc
          unfold parseMobile at hp
          rw [if_pos hc] at hp
          exact absurd hp (by simp)
        · intro _
          exact ⟨hsu.trans hsucc, hmo.trans hmob⟩
    · have hok : (getMobilePhase d st).2 = Res.ok () := by
        simp only [getMobilePhase, step_js, bind_eq, Mbind, h, logM, pure_eq, Mpure, hp, setMob]
      have hsu : (getMobilePhase d st).1.succ = true := by
        simp only [getMobilePhase, step_js, bind_eq, Mbind, h, logM, pure_eq, Mpure, hp, setMob]
      have hmo : (getMobilePhase d st).1.mobile = some v := by
        simp only [getMobilePhase, step_js, bind_eq, Mbind, h, logM, pure_eq, Mpure, hp, setMob]
      refine ⟨?_, ?_⟩
      · intro e heq
        rw [hok] at heq
        exact Res.noConfusion heq
      · intro _
        unfold parseMobile at hp
        by_cases hc : strContains (execute_js_and_get_text d.getMobile) "SUCCESS:" = true
        · rw [if_pos hc] at hp
          constructor
          · intro _
            exact ⟨hsu, hmo.trans (congrArg some (Option.some.inj hp).symm)⟩
          · intro hcf
            rw [hcf] at hc
            exact absurd hc (by decide)
        · rw [if_neg hc] at hp
          exact absurd hp (by simp)
  · have htm : (getMobilePhase d st).2 = Res.timedOut := by
      simp only [getMobilePhase, step_js, bind_eq, Mbind, h, logM, pure_eq, Mpure]
    refine ⟨?_, ?_⟩
    · intro e heq
      rw [htm] at heq
      exact Res.noConfusion heq
    · intro heq
      rw [htm] at heq
      exact Res.noConfusion heq

/-- C6 witness: the amended statement instantiated at the all-success
driver from the initial state. -/
theorem getMobile_marker_parse_w :
    (initSt none).succ = false ∧ (initSt none).mobile = none ∧
    ((∀ e, (getMobilePhase allOkDriver (initSt none)).2 ≠ Res.raised e) ∧
     ((getMobilePhase allOkDriver (initSt none)).2 = Res.ok () →
       (strContains (execute_js_and_get_text allOkDriver.getMobile) "SUCCESS:" = true →
         (getMobilePhase allOkDriver (initSt none)).1.succ = true ∧
         (getMobilePhase allOkDriver (initSt none)).1.mobile =
           some (extractAfterMarker (execute_js_and_get_text allOkDriver.getMobile))) ∧
       (strContains (execute_js_and_get_text allOkDriver.getMobile) "SUCCESS:" = false →
         (getMobilePhase allOkDriver (initSt none)).1.succ = false ∧
         (getMobilePhase allOkDriver (initSt none)).1.mobile = none))) :=
  ⟨rfl, rfl, getMobile_marker_parse allOkDriver (initSt none) rfl rfl⟩

/-- C7 counterexample: on the spec's concrete request against the
all-success driver the run yields success=true and mobile "9876543210",
but `details.messages` has 15 entries, not 11: the 11 scripted-step
entries plus "Starting NoDriver automation...", "Loading website...",
"Modal dialog closed" and "Clicked RTO dropdown". -/
theorem run_flow_happy_count_cex :
    (run_flow cReq allOkDriver none).result = Except.ok allOkResult ∧
    allOkResult.success = true ∧
    allOkResult.mobile_number = some "9876543210" ∧
    allOkResult.messages.length = 15 ∧
    ¬ allOkResult.messages.length = 11 := by
  refine ⟨?_, rfl, rfl, rfl, ?_⟩
  · rfl
  · decide

/-- C7 (amended): the concrete request {reg_no "DL1ABC1234", chassis_no
"MA3ERLF1S00123456", rto_value "53", timeout_sec 120} against a driver
whose every step succeeds with a success marker and whose extraction
returns "SUCCESS: 9876543210" yields success=true, mobile_number
"9876543210", and exactly 15 entries in details.messages. -/
theorem run_flow_happy_path :
    run_flow cReq allOkDriver none =
      { result := Except.ok allOkResult, profileRemoved := true, timedOut := false } ∧
    allOkResult.messages.length = 15 := by
  constructor
  · rfl
  · rfl

/-- C8: for every request, when the child exited but reading or parsing
the handoff artifact raises with cause `c` (src/main.py:370-374), the
parent returns exactly the synthesized result whose single log message is
"read_error: " followed by the cause. -/
theorem read_error_synthesized (req : RunRequest) (obs : ChildObs) (c : String)
    (hh : obs.hangs = false) (hr : obs.read = Except.error c) :
    run_in_child_sync req obs =
      ({ success := false, mobile_number := none,
         messages := ["read_error: " ++ c] }, false) := by
  simp [run_in_child_sync, hh, hr]

/-- C8 witness. -/
theorem read_error_synthesized_w :
    run_in_child_sync cReq { hangs := false, read := Except.error "cause" } =
      ({ success := false, mobile_number := none,
         messages := ["read_error: " ++ "cause"] }, false) :=
  read_error_synthesized cReq { hangs := false, read := Except.error "cause" } "cause" rfl rfl

/-- C9: `execute_js_and_get_text` is total by construction (both driver
outcomes are handled, src/main.py:28-36): on success it returns the
script result rendered as a string, and on a raising driver call it
returns the text "ERROR: JavaScript execution error: <cause>", which
begins with the error marker "ERROR: ". -/
theorem execute_js_total (r : Except String EvalResult) :
    (∀ v, r = Except.ok v → execute_js_and_get_text r = evalStr v) ∧
    (∀ e, r = Except.error e →
      execute_js_and_get_text r = "ERROR: JavaScript execution error: " ++ e ∧
      "ERROR: ".data <+: (execute_js_and_get_text r).data) := by
  constructor
  · intro v hv
    rw [hv]
    rfl
  · intro e he
    rw [he]
    refine ⟨rfl, ?_⟩
    obtain ⟨l⟩ := e
    refine ⟨"JavaScript execution error: ".data ++ l, ?_⟩
    show "ERROR: ".data ++ ("JavaScript execution error: ".data ++ l)
        = "ERROR: JavaScript execution error: ".data ++ l
    rw [← List.append_assoc]
    congr 1

/-- C9 witness. -/
theorem execute_js_total_w :
    execute_js_and_get_text (Except.error "boom") =
      "ERROR: JavaScript execution error: " ++ "boom" ∧
    "ERROR: ".data <+: (execute_js_and_get_text (Except.error "boom")).data :=
  (execute_js_total (Except.error "boom")).2 "boom" rfl

/-- C10: for every exception cause, when `asyncio.run(run_flow(...))`
raises inside the child and the artifact write itself succeeds, the
content persisted to the handoff path is exactly the well-formed
`{success: false, mobile_number: none, messages: ["child_error: <cause>"]}`
(src/main.py:345-350). -/
theorem child_error_persisted (e : String) :
    childPersist true (Except.error e) =
      some { success := false, mobile_number := none,
             messages := ["child_error: " ++ e] } := rfl
